import Mathlib

/-
  Verification development for the cluster-api-provider-kubevirt core.

  Shallow embedding of:
  - pkg/kubevirt/kubevirt.go        (manager: Create / Update / Delete / Exists, updateVM, syncMachine,
                                     addHostnameToUserData, conditionFailed, deleteInraClusterVM)
  - the condition helpers           (setKubevirtMachineProviderCondition and friends, package vm)
  - the providerid reconciler       (both versions present in the sources)

  Conventions of the embedding:
  - Go `error` values are `GoError`; `fmt.Errorf("...: %w", err)` is `GoError.wrapped`.
  - Go functions returning `(T, error)` pairs from the infra-cluster client are modelled by
    `GoResult T` (both components optional, as both `(nil, nil)` and `(obj, err)` occur in Go).
  - A run of a manager operation returns its Go return values together with the list of
    infra-cluster API calls it issued, so call-count properties are statable.
  - Runtime panics (nil map assignment, failed type assertion, nil pointer dereference)
    are explicit `panics` outcomes.
  - Durations are modelled in seconds (the source multiplies the same constants by time.Second).
  - Timestamps (metav1.Time) are modelled as naturals.
-/

/-- Go `error` values as they occur in the embedded code.
`notFound` is a k8s not-found status error (`errors.IsNotFound`);
`requeueAfter` is `machinecontroller.RequeueAfterError` with its delay in seconds;
`invalidConfiguration` is `machinecontroller.InvalidMachineConfiguration`;
`wrapped` is `fmt.Errorf("<context>: %w", cause)`. -/
inductive GoError : Type
  | notFound (msg : String)
  | requeueAfter (seconds : Nat)
  | invalidConfiguration (msg : String)
  | other (msg : String)
  | wrapped (context : String) (cause : GoError)
  deriving DecidableEq

/-- `errors.IsNotFound` on the embedded errors (applied to unwrapped client errors in the source). -/
def GoError.isNotFound : GoError → Bool
  | .notFound _ => true
  | _ => false

/-- Go `err.Error()`. -/
def GoError.errorString : GoError → String
  | .notFound m => m
  | .requeueAfter s => "requeue in " ++ toString s ++ "s"
  | .invalidConfiguration m => m
  | .other m => m
  | .wrapped c e => c ++ ": " ++ e.errorString

/-- The result of a Go call returning `(*T, error)`: both components may independently
be present or absent, exactly as with Go pointers and errors. -/
structure GoResult (α : Type) : Type where
  val : Option α
  err : Option GoError

/-- Go return of a function body that may also panic at runtime. -/
inductive GoRet (α : Type) : Type
  | ret (a : α)
  | panics (msg : String)

/-! ## Dynamic JSON values (`map[string]interface{}` after `json.Unmarshal`)

`obj` is `map[string]interface{}` (fields as an association list),
`arr` is `[]interface{}` (what `json.Unmarshal` produces for any JSON array), and
`mapSlice` is `[]map[string]interface{}` (what `addHostnameToUserData` itself builds).
The distinction between `arr` and `mapSlice` is semantically relevant: the source's
type assertion `storage["files"].([]map[string]interface{})` succeeds on the latter only. -/
inductive GoValue : Type
  | null
  | bool (b : Bool)
  | num (n : Int)
  | str (s : String)
  | arr (xs : List GoValue)
  | obj (fields : List (String × GoValue))
  | mapSlice (xs : List (List (String × GoValue)))

/-- Go map indexing `m[k]` (presence and value). -/
def goLookup {β : Type} (k : String) : List (String × β) → Option β
  | [] => none
  | p :: rest => if p.1 = k then some p.2 else goLookup k rest

/-- Go map assignment `m[k] = v`: replaces the entry in place when the key is present,
adds the entry otherwise. -/
def mapSet {β : Type} (k : String) (v : β) (m : List (String × β)) : List (String × β) :=
  if (goLookup k m).isSome then m.map (fun p => if p.1 = k then (k, v) else p)
  else m ++ [(k, v)]

/-- Byte-wise (char-code) ordering of strings, used to model `json.Marshal`
printing Go map keys in sorted order. -/
def charListLe : List Char → List Char → Bool
  | [], _ => true
  | _ :: _, [] => false
  | x :: xs, y :: ys =>
    if x.toNat < y.toNat then true
    else if y.toNat < x.toNat then false
    else charListLe xs ys

def strLe (a b : String) : Bool := charListLe a.data b.data

def insertByKey (p : String × GoValue) : List (String × GoValue) → List (String × GoValue)
  | [] => [p]
  | q :: rest => if strLe p.1 q.1 then p :: q :: rest else q :: insertByKey p rest

def sortByKey (l : List (String × GoValue)) : List (String × GoValue) :=
  l.foldr insertByKey []

/-- The canonical form `json.Marshal` gives a decoded-or-constructed Go value:
object keys in sorted order, and both `[]interface{}` and `[]map[string]interface{}`
printed as JSON arrays. Recursion is bounded by explicit fuel; `canon` below
supplies fuel ample for every document in this development. -/
def canonFuel : Nat → GoValue → GoValue
  | 0, v => v
  | n + 1, .obj fs => .obj (sortByKey (fs.map (fun p => (p.1, canonFuel n p.2))))
  | n + 1, .arr xs => .arr (xs.map (canonFuel n))
  | n + 1, .mapSlice xs => .arr (xs.map (fun fs => canonFuel n (.obj fs)))
  | _ + 1, v => v

def canon (v : GoValue) : GoValue := canonFuel 32 v

/-- The outcome of a Go function returning `(T, error)` where the body may also panic:
`ok` is `(value, nil)`, `err` is `(zero, err)`, `panics` is a runtime panic. -/
inductive OpResult (α : Type) : Type
  | ok (a : α)
  | err (e : GoError)
  | panics (msg : String)

/-- The `newFile` map built by `addHostnameToUserData` (fields listed in construction
order; key order of a Go map is immaterial and canonicalized by `canon`). -/
def newUserDataFile (hostname : String) : List (String × GoValue) :=
  [("filesystem", .str "root"),
   ("path", .str "/etc/hostname"),
   ("mode", .num 420),
   ("contents", .obj [("source", .str ("data:," ++ hostname))])]

/-- Embeds `manager.addHostnameToUserData` (pkg/kubevirt/kubevirt.go).
The `[]byte` input is modelled by its decoded form: `some m` when `json.Unmarshal`
decodes the bytes into a non-nil map with fields `m`, `none` when unmarshalling fails
(or decodes JSON `null`), which leaves the Go `dataMap` a nil map — the source ignores
the unmarshal error, so in that case the subsequent `dataMap["storage"] = ...`
assignment panics. The two `match` arms marked unreachable cannot fire because the
key was just ensured present. -/
def addHostnameToUserData (dataMap : Option (List (String × GoValue))) (hostname : String) :
    OpResult (List (String × GoValue)) :=
  match dataMap with
  | none => .panics "assignment to entry in nil map"
  | some m0 =>
    let m := if (goLookup "storage" m0).isSome then m0 else mapSet "storage" (.obj []) m0
    match goLookup "storage" m with
    | some (.obj fs0) =>
      let fs := if (goLookup "files" fs0).isSome then fs0 else mapSet "files" (.mapSlice []) fs0
      match goLookup "files" fs with
      | some (.mapSlice files) =>
        .ok (mapSet "storage"
              (.obj (mapSet "files" (.mapSlice (files ++ [newUserDataFile hostname])) fs)) m)
      | some _ => .panics "interface conversion: files is not a slice of maps"
      | none => .panics "unreachable: files was just ensured present"
    | some _ => .panics "interface conversion: storage is not a map"
    | none => .panics "unreachable: storage was just ensured present"

/-- The document the spec's round-trip example expects for input
`{"key1":"value1"}` and hostname `"machine-test"`, written in canonical (sorted-key)
form. -/
def expectedUserDataDoc : GoValue :=
  .obj [("key1", .str "value1"),
        ("storage", .obj [("files", .arr [
          .obj [("contents", .obj [("source", .str "data:,machine-test")]),
                ("filesystem", .str "root"),
                ("mode", .num 420),
                ("path", .str "/etc/hostname")]])])]

/-! ## Machine provider conditions (condition helpers, package vm) -/

/-- `kubevirtapiv1.VirtualMachineCondition`. `condType` is the Go `Type` field
(`VirtualMachineConditionType`), `status` the Go `Status` (`corev1.ConditionStatus`). -/
structure VMCondition : Type where
  condType : String
  status : String
  reason : String
  message : String
  lastProbeTime : Nat
  lastTransitionTime : Nat
  deriving DecidableEq

/-- Embeds `conditionFailed` (defined identically in pkg/kubevirt/kubevirt.go and in the
condition-helper file): type `VirtualMachineFailure` ("Failure"), status `ConditionTrue`
("True"), reason "MachineCreationFailed"; message and times zero-valued. -/
def conditionFailed : VMCondition :=
  { condType := "Failure", status := "True", reason := "MachineCreationFailed",
    message := "", lastProbeTime := 0, lastTransitionTime := 0 }

/-- Embeds `shouldUpdateCondition`. -/
def shouldUpdateCondition (newCondition existingCondition : VMCondition) : Bool :=
  newCondition.reason != existingCondition.reason ||
  newCondition.message != existingCondition.message

/-- Embeds `updateExistingCondition` (`now` models `metav1.Now()`): when
`shouldUpdateCondition` fails nothing at all is written; otherwise the transition time
is refreshed only on a status change, and status/reason/message/probe time are copied
from the incoming condition. -/
def updateExistingCondition (now : Nat) (newCondition existingCondition : VMCondition) :
    VMCondition :=
  if !(shouldUpdateCondition newCondition existingCondition) then existingCondition
  else
    let e1 := if existingCondition.status != newCondition.status
              then { existingCondition with lastTransitionTime := now }
              else existingCondition
    { e1 with status := newCondition.status, reason := newCondition.reason,
              message := newCondition.message, lastProbeTime := newCondition.lastProbeTime }

/-- Embeds `findProviderCondition` (returns the first condition of the given type;
the source returns a pointer into the slice, which `updateExistingCondition` mutates,
modelled by `replaceFirstCondition` below). -/
def findProviderCondition (conditions : List VMCondition) (conditionType : String) :
    Option VMCondition :=
  conditions.find? (fun c => c.condType == conditionType)

/-- The in-place mutation through the pointer returned by `findProviderCondition`:
exactly the first condition of the matching type is replaced by its update. -/
def replaceFirstCondition (now : Nat) (c : VMCondition) :
    List VMCondition → List VMCondition
  | [] => []
  | e :: rest =>
    if e.condType = c.condType then updateExistingCondition now c e :: rest
    else e :: replaceFirstCondition now c rest

/-- Embeds `setKubevirtMachineProviderCondition`: appends the condition (with both
timestamps set to now) when no condition of its type exists, otherwise updates the
existing one in place. -/
def setKubevirtMachineProviderCondition (now : Nat) (condition : VMCondition)
    (conditions : List VMCondition) : List VMCondition :=
  match findProviderCondition conditions condition.condType with
  | none => conditions ++ [{ condition with lastProbeTime := now, lastTransitionTime := now }]
  | some _ => replaceFirstCondition now condition conditions

/-- The condition-list invariant: condition types are pairwise distinct. -/
def uniqueConditionTypes (conditions : List VMCondition) : Prop :=
  (conditions.map (fun c => c.condType)).Nodup

/-! ## Infra-cluster objects and clients -/

/-- The `VirtualMachineStatus` fields the manager reads/writes (`Created`, `Ready`). -/
structure VirtualMachineStatus : Type where
  created : Bool
  ready : Bool
  deriving DecidableEq

/-- `kubevirtapiv1.VirtualMachine`, restricted to the fields the embedded code uses.
`objNamespace` is `ObjectMeta.Namespace`, `resourceVersion` is
`ObjectMeta.ResourceVersion`; `spec` stands opaquely for the rest of the object. -/
structure VirtualMachine : Type where
  name : String
  objNamespace : String
  resourceVersion : String
  spec : String
  status : VirtualMachineStatus
  deriving DecidableEq

/-- `kubevirtapiv1.VirtualMachineInstance`, restricted to the fields used:
identity plus the interface addresses folded into the machine status. -/
structure VirtualMachineInstance : Type where
  name : String
  objNamespace : String
  interfaces : List String
  deriving DecidableEq

/-- The zero-valued instance object a Kubernetes-style client hands back
alongside a non-nil error. -/
def emptyVMI : VirtualMachineInstance :=
  { name := "", objNamespace := "", interfaces := [] }

/-- `corev1.Secret`, restricted to identity (content is opaque here). -/
structure Secret : Type where
  name : String
  objNamespace : String
  deriving DecidableEq

/-- Modelled from the spec: the machine's provider status payload that status
synchronization fills — VM-derived flags (`Created`/`Ready`) plus the
instance-derived interface addresses (the machinescope package is not under src/). -/
structure ProviderStatus : Type where
  vmCreated : Bool
  vmReady : Bool
  addresses : List String
  deriving DecidableEq

/-- Modelled from the spec: `machinescope.SyncMachine`'s pure part (the machinescope
package is not under src/) — "maps VirtualMachineObserved's phase/ready/
interface-address fields onto the machine's provider status payload". -/
def syncMachineModel (vm : VirtualMachine) (vmi : VirtualMachineInstance) : ProviderStatus :=
  { vmCreated := vm.status.created, vmReady := vm.status.ready, addresses := vmi.interfaces }

/-- One reconciliation's `machinescope.MachineScope`, modelled by the results of the
methods the manager calls on it. `createVMFromMachine` is
`CreateVirtualMachineFromMachine`; `ignitionSecretOf` is
`CreateIgnitionSecretFromMachine` applied to the full user data; `updateAllowed` is
`UpdateAllowed` — modelled from the spec (machinescope is not under src/) as the
predicate that holds while the machine is within the eventual-consistency grace
window; `statusPatchErr` injects a failure of `SyncMachine`'s status patch back to the
tenant cluster; `conditions` is the machine's provider-status condition list. -/
structure MachineScope : Type where
  machineName : String
  infraNamespace : String
  createVMFromMachine : Except GoError VirtualMachine
  ignitionSecretOf : List (String × GoValue) → Secret
  updateAllowed : Nat → Bool
  statusPatchErr : Option GoError
  conditions : List VMCondition

/-- The infra-cluster client (`infracluster.Client`), modelled by the response each of
its methods would return during the one embedded operation (each method is called at
most once per manager operation). -/
structure InfraClient : Type where
  createSecretResp : GoResult Secret
  createVMResp : GoResult VirtualMachine
  getVMResp : GoResult VirtualMachine
  getVMIResp : GoResult VirtualMachineInstance
  updateVMResp : GoResult VirtualMachine
  deleteVMResp : Option GoError

/-- The infra-cluster API calls a manager operation issues, in order.
`deleteVM` records the `GracePeriodSeconds` passed in the delete options. -/
inductive InfraCall : Type
  | createSecret (objNamespace name : String)
  | createVM (objNamespace name : String)
  | getVM (objNamespace name : String)
  | getVMI (objNamespace name : String)
  | updateVM (objNamespace name : String)
  | deleteVM (objNamespace name : String) (gracePeriodSeconds : Nat)
  deriving DecidableEq

/-! ## The manager (pkg/kubevirt/kubevirt.go) -/

/-- `requeueAfterSeconds` (pkg/kubevirt/kubevirt.go, const block). -/
def requeueAfterSeconds : Nat := 20

/-- `requeueAfterFatalSeconds` (pkg/kubevirt/kubevirt.go, const block). -/
def requeueAfterFatalSeconds : Nat := 180

namespace manager

/-- Embeds `manager.syncMachine`: fetches the VM's instance sub-object; a fetch error is
only logged, after which the source dereferences the returned instance pointer
(`*vmi`) unconditionally — a nil instance is a nil-pointer dereference. The machine's
status is then synchronized (`machineScope.SyncMachine`), whose tenant-side patch may
fail. -/
def syncMachine (s : MachineScope) (c : InfraClient) (vm : VirtualMachine) :
    OpResult ProviderStatus × List InfraCall :=
  let calls := [InfraCall.getVMI vm.objNamespace vm.name]
  match c.getVMIResp.val with
  | none => (.panics "runtime error: invalid memory address or nil pointer dereference", calls)
  | some vmi =>
    match s.statusPatchErr with
    | some e => (.err e, calls)
    | none => (.ok (syncMachineModel vm vmi), calls)

/-- The Go return values of `manager.Create`, plus the machine's condition list as it
stands when Create returns (the source never writes to it: the `conditionFailed`
values built on the two failure paths are local and discarded). -/
structure CreateRet : Type where
  err : Option GoError
  syncedStatus : Option ProviderStatus
  conditions : List VMCondition

/-- Embeds `manager.Create`. `userData` is the boot-config payload in decoded form
(see `addHostnameToUserData`). -/
def Create (s : MachineScope) (c : InfraClient)
    (userData : Option (List (String × GoValue))) :
    GoRet CreateRet × List InfraCall :=
  match addHostnameToUserData userData s.machineName with
  | .panics msg => (.panics msg, [])
  | .err e => (.ret { err := some e, syncedStatus := none, conditions := s.conditions }, [])
  | .ok fullUserData =>
    let secretFromMachine := s.ignitionSecretOf fullUserData
    let calls := [InfraCall.createSecret secretFromMachine.objNamespace secretFromMachine.name]
    match c.createSecretResp.err with
    | some e =>
      -- the source builds `conditionFailed()` here, sets its Message to err.Error(),
      -- and then discards the value: the machine's condition list is not touched
      let _conditionFailed := { conditionFailed with message := e.errorString }
      (.ret { err := some (.wrapped "failed to create ignition secret" e),
              syncedStatus := none, conditions := s.conditions }, calls)
    | none =>
      match s.createVMFromMachine with
      | .error e =>
        (.ret { err := some e, syncedStatus := none, conditions := s.conditions }, calls)
      | .ok virtualMachineFromMachine =>
        let calls := calls ++
          [InfraCall.createVM virtualMachineFromMachine.objNamespace
            virtualMachineFromMachine.name]
        match c.createVMResp.err with
        | some e =>
          -- same discarded `conditionFailed()` pattern as on the secret path
          let _conditionFailed := { conditionFailed with message := e.errorString }
          (.ret { err := some (.wrapped "failed to create virtual machine" e),
                  syncedStatus := none, conditions := s.conditions }, calls)
        | none =>
          match c.createVMResp.val with
          | none =>
            -- `*createdVM` on a nil pointer
            (.panics "runtime error: invalid memory address or nil pointer dereference",
             calls)
          | some createdVM =>
            match syncMachine s c createdVM with
            | (.panics msg, syncCalls) => (.panics msg, calls ++ syncCalls)
            | (.err e, syncCalls) =>
              (.ret { err := some e, syncedStatus := none, conditions := s.conditions },
               calls ++ syncCalls)
            | (.ok st, syncCalls) =>
              (.ret { err := none, syncedStatus := some st, conditions := s.conditions },
               calls ++ syncCalls)

/-- Embeds `manager.Delete`: get the VM; a not-found get error or an absent object is
success without any delete call; otherwise delete with `GracePeriodSeconds` 10
(`deleteInraClusterVM`), wrapping a delete failure. -/
def Delete (s : MachineScope) (c : InfraClient) : Option GoError × List InfraCall :=
  match s.createVMFromMachine with
  | .error e => (some e, [])
  | .ok virtualMachineFromMachine =>
    let calls := [InfraCall.getVM virtualMachineFromMachine.objNamespace
      virtualMachineFromMachine.name]
    match c.getVMResp.err with
    | some e => if e.isNotFound then (none, calls) else (some e, calls)
    | none =>
      match c.getVMResp.val with
      | none => (none, calls)
      | some existingVM =>
        let calls := calls ++ [InfraCall.deleteVM existingVM.objNamespace existingVM.name 10]
        match c.deleteVMResp with
        | some e => (some (.wrapped "failed to delete VM" e), calls)
        | none => (none, calls)

/-- The Go return triple of `manager.updateVM`: `(wasUpdated, updatedVM, err)`. -/
structure UpdateVMRet : Type where
  wasUpdated : Bool
  vm : Option VirtualMachine
  err : Option GoError

/-- Embeds `manager.updateVM`: a get error is propagated; an absent VM yields a
`RequeueAfterError` — 20s while `UpdateAllowed(requeueAfterSeconds)` holds, 180s
otherwise; a found VM has its resource version and created/ready status carried onto
the desired VM, the update call is issued, and `wasUpdated` compares the resource
versions before and after the call. -/
def updateVM (s : MachineScope) (c : InfraClient)
    (virtualMachineFromMachine : VirtualMachine) :
    GoRet UpdateVMRet × List InfraCall :=
  let calls := [InfraCall.getVM virtualMachineFromMachine.objNamespace
    virtualMachineFromMachine.name]
  match c.getVMResp.err with
  | some e => (.ret { wasUpdated := false, vm := none, err := some e }, calls)
  | none =>
    match c.getVMResp.val with
    | none =>
      if s.updateAllowed requeueAfterSeconds then
        (.ret { wasUpdated := false, vm := none,
                err := some (.requeueAfter requeueAfterSeconds) }, calls)
      else
        -- unrecoverable-looking state: delay to minimize unnecessary API calls
        (.ret { wasUpdated := false, vm := none,
                err := some (.requeueAfter requeueAfterFatalSeconds) }, calls)
    | some existingVM =>
      let previousResourceVersion := existingVM.resourceVersion
      let toUpdate := { virtualMachineFromMachine with
        resourceVersion := previousResourceVersion,
        status := { created := existingVM.status.created, ready := existingVM.status.ready } }
      let calls := calls ++ [InfraCall.updateVM toUpdate.objNamespace toUpdate.name]
      match c.updateVMResp.err with
      | some e =>
        (.ret { wasUpdated := false, vm := none,
                err := some (.wrapped "failed to update VM" e) }, calls)
      | none =>
        match c.updateVMResp.val with
        | none =>
          -- `updatedVM.ResourceVersion` on a nil pointer
          (.panics "runtime error: invalid memory address or nil pointer dereference", calls)
        | some updatedVM =>
          let currentResourceVersion := updatedVM.resourceVersion
          (.ret { wasUpdated := previousResourceVersion != currentResourceVersion,
                  vm := some updatedVM, err := none }, calls)

/-- The Go return pair of `manager.Update` (`wasUpdated`, error), plus the machine
status synchronized on success. -/
structure UpdateRet : Type where
  wasUpdated : Bool
  err : Option GoError
  syncedStatus : Option ProviderStatus

/-- Embeds `manager.Update`: derives the desired VM, runs `updateVM`, and on success
synchronizes the machine status from the updated VM (`syncMachine`); every error path
returns `wasUpdated = false`. -/
def Update (s : MachineScope) (c : InfraClient) : GoRet UpdateRet × List InfraCall :=
  match s.createVMFromMachine with
  | .error e => (.ret { wasUpdated := false, err := some e, syncedStatus := none }, [])
  | .ok virtualMachineFromMachine =>
    match updateVM s c virtualMachineFromMachine with
    | (.panics msg, calls) => (.panics msg, calls)
    | (.ret r, calls) =>
      match r.err with
      | some e =>
        (.ret { wasUpdated := false, err := some e, syncedStatus := none }, calls)
      | none =>
        match r.vm with
        | none =>
          -- unreachable in the source: a nil error from updateVM comes with a VM
          (.panics "runtime error: invalid memory address or nil pointer dereference", calls)
        | some updatedVM =>
          match syncMachine s c updatedVM with
          | (.panics msg, syncCalls) => (.panics msg, calls ++ syncCalls)
          | (.err e, syncCalls) =>
            (.ret { wasUpdated := false, err := some e, syncedStatus := none },
             calls ++ syncCalls)
          | (.ok st, syncCalls) =>
            (.ret { wasUpdated := r.wasUpdated, err := none, syncedStatus := some st },
             calls ++ syncCalls)

/-- Embeds `manager.Exists`: one get by machine name in the infra namespace;
not-found and an absent object map to `(false, nil)`, any other get error is
propagated, a present object maps to `(true, nil)`. -/
def existsMachine (s : MachineScope) (c : InfraClient) :
    (Bool × Option GoError) × List InfraCall :=
  let calls := [InfraCall.getVM s.infraNamespace s.machineName]
  match c.getVMResp.err with
  | some e => if e.isNotFound then ((false, none), calls) else ((false, some e), calls)
  | none =>
    match c.getVMResp.val with
    | none => ((false, none), calls)
    | some _ => ((true, none), calls)

end manager

/-! ## The providerid reconciler (both versions in the sources) -/

/-- `corev1.Node`, restricted to the fields used: name and `Spec.ProviderID`. -/
structure Node : Type where
  name : String
  providerID : String
  deriving DecidableEq

/-- `reconcile.Result`; `{}` is `emptyReconcileResult`. -/
structure ReconcileResult : Type where
  requeue : Bool
  requeueAfterSeconds : Nat
  deriving DecidableEq

def emptyReconcileResult : ReconcileResult := { requeue := false, requeueAfterSeconds := 0 }

/-- `IDFormat = "kubevirt://%s/%s"` applied by `FormatProviderID`. -/
def FormatProviderID (objNamespace name : String) : String :=
  "kubevirt://" ++ objNamespace ++ "/" ++ name

/-- The environment of one providerid reconcile pass, modelled by the response each
client call would return. `getNodeResp` is the tenant-side `client.Get` of the node
(a value receiver in Go, hence no nil case); `getNamespaceResp` is
`tenantClusterClient.GetNamespace` (first source version); `getConfigMapResp` is
`tenantClusterClient.GetConfigMapValue` (second source version);
`getVMIResp` is `infraClusterClient.GetVirtualMachineInstance`;
`updateNodeErr` is the outcome of `client.Update`. -/
structure ProviderIDEnv : Type where
  getNodeResp : Except GoError Node
  getNamespaceResp : Except GoError String
  getConfigMapResp : Except GoError (List (String × String))
  getVMIResp : Except GoError VirtualMachineInstance
  updateNodeErr : Option GoError

/-- The calls a providerid reconcile pass issues, in order. -/
inductive ProviderIDCall : Type
  | getNode (name : String)
  | getNamespace
  | getConfigMapValue (name objNamespace key : String)
  | getVMI (objNamespace name : String)
  | updateNode (n : Node)
  deriving DecidableEq

/-- Embeds the first source version of `providerIDReconciler.Reconcile`
(namespace from `tenantClusterClient.GetNamespace`, looked up once inside
`getVMName` and once again before formatting the identifier). Nodes whose
`Spec.ProviderID` is already non-empty are returned untouched. -/
def providerIDReconcileV1 (env : ProviderIDEnv) (requestName : String) :
    (ReconcileResult × Option GoError) × List ProviderIDCall :=
  let calls := [ProviderIDCall.getNode requestName]
  match env.getNodeResp with
  | .error e =>
    if e.isNotFound then ((emptyReconcileResult, none), calls)
    else ((emptyReconcileResult, some (.wrapped "error getting node" e)), calls)
  | .ok node =>
    if node.providerID != "" then ((emptyReconcileResult, none), calls)
    else
      -- getVMName: namespace lookup, then instance get
      let calls := calls ++ [ProviderIDCall.getNamespace]
      match env.getNamespaceResp with
      | .error e =>
        ((emptyReconcileResult, some (.wrapped "failed to get infraCluster namespace" e)),
         calls)
      | .ok ns1 =>
        let calls := calls ++ [ProviderIDCall.getVMI ns1 node.name]
        match env.getVMIResp with
        | .error e => ((emptyReconcileResult, some e), calls)
        | .ok vmi =>
          let calls := calls ++ [ProviderIDCall.getNamespace]
          match env.getNamespaceResp with
          | .error e =>
            ((emptyReconcileResult,
              some (.wrapped "failed to get infraCluster namespace" e)), calls)
          | .ok ns2 =>
            let node' := { node with providerID := FormatProviderID ns2 vmi.name }
            let calls := calls ++ [ProviderIDCall.updateNode node']
            match env.updateNodeErr with
            | some e =>
              ((emptyReconcileResult,
                some (.wrapped ("failed updating node " ++ node.name) e)), calls)
            | none => ((emptyReconcileResult, none), calls)

/-- Embeds the second source version of `providerIDReconciler.Reconcile`
(namespace from the cloud-provider-config config map; a config-map read error is
swallowed — the pass returns success without requeue). Nodes whose `Spec.ProviderID`
is already non-empty are returned untouched. -/
def providerIDReconcileV2 (env : ProviderIDEnv) (requestName : String) :
    (ReconcileResult × Option GoError) × List ProviderIDCall :=
  let calls := [ProviderIDCall.getNode requestName]
  match env.getNodeResp with
  | .error e =>
    if e.isNotFound then ((emptyReconcileResult, none), calls)
    else ((emptyReconcileResult, some (.wrapped "error getting node" e)), calls)
  | .ok node =>
    if node.providerID != "" then ((emptyReconcileResult, none), calls)
    else
      let calls := calls ++
        [ProviderIDCall.getConfigMapValue "cloud-provider-config" "openshift-config" "config"]
      match env.getConfigMapResp with
      | .error _ => ((emptyReconcileResult, none), calls)
      | .ok cMap =>
        match goLookup "namespace" cMap with
        | none =>
          ((emptyReconcileResult,
            some (.invalidConfiguration
              "ProviderID: configMap openshift-config/cloud-provider-config: The map extracted with key config doesn't contain key namespace")),
           calls)
        | some infraClusterNamespace =>
          let calls := calls ++ [ProviderIDCall.getVMI infraClusterNamespace node.name]
          match env.getVMIResp with
          | .error e => ((emptyReconcileResult, some e), calls)
          | .ok vmi =>
            let node' :=
              { node with providerID := FormatProviderID infraClusterNamespace vmi.name }
            let calls := calls ++ [ProviderIDCall.updateNode node']
            match env.updateNodeErr with
            | some e =>
              ((emptyReconcileResult,
                some (.wrapped ("failed updating node " ++ node.name) e)), calls)
            | none => ((emptyReconcileResult, none), calls)

/-! ## Concrete fixtures (used by witnesses and counterexamples) -/

def vmTest : VirtualMachine :=
  { name := "machine-test", objNamespace := "kubevirt-actuator-cluster",
    resourceVersion := "41", spec := "spec-a",
    status := { created := true, ready := false } }

def vmiTest : VirtualMachineInstance :=
  { name := "machine-test", objNamespace := "kubevirt-actuator-cluster",
    interfaces := ["10.0.0.7"] }

def scopeTest : MachineScope :=
  { machineName := "machine-test",
    infraNamespace := "kubevirt-actuator-cluster",
    createVMFromMachine := .ok vmTest,
    ignitionSecretOf := fun _ =>
      { name := "machine-test-ignition", objNamespace := "kubevirt-actuator-cluster" },
    updateAllowed := fun _ => true,
    statusPatchErr := none,
    conditions := [] }

/-- `scopeTest` with the eventual-consistency grace window already elapsed. -/
def scopeTestLate : MachineScope := { scopeTest with updateAllowed := fun _ => false }

/-- A client on which every call returns `(nil, nil)`. -/
def idleClient : InfraClient :=
  { createSecretResp := { val := none, err := none },
    createVMResp := { val := none, err := none },
    getVMResp := { val := none, err := none },
    getVMIResp := { val := none, err := none },
    updateVMResp := { val := none, err := none },
    deleteVMResp := none }

/-- A client whose secret-creation call fails. -/
def secretFailClient : InfraClient :=
  { idleClient with createSecretResp := { val := none, err := some (.other "boom") } }

/-- A client for a successful create pass on which the instance get fails
(not-found, zero-valued instance alongside the error). -/
def vmiLagClient : InfraClient :=
  { idleClient with
    createSecretResp :=
      { val := some { name := "machine-test-ignition",
                      objNamespace := "kubevirt-actuator-cluster" }, err := none },
    createVMResp := { val := some vmTest, err := none },
    getVMIResp := { val := some emptyVMI,
                    err := some (.notFound "virtualmachineinstance not found") } }

/-- The updated VM the infra cluster returns for a no-op update: same resource
version as `vmTest`. -/
def vmTestSameRV : VirtualMachine := { vmTest with spec := "spec-a" }

/-- A client for an update pass: the VM is found and the update call succeeds
returning the same resource version (no-op update). -/
def updateNoopClient : InfraClient :=
  { idleClient with
    getVMResp := { val := some vmTest, err := none },
    updateVMResp := { val := some vmTestSameRV, err := none },
    getVMIResp := { val := some vmiTest, err := none } }

/-- A client on which the VM is found and the delete call succeeds. -/
def deleteFoundClient : InfraClient :=
  { idleClient with getVMResp := { val := some vmTest, err := none } }

/-- A client whose VM get fails with a not-found error. -/
def notFoundClient : InfraClient :=
  { idleClient with
    getVMResp := { val := none, err := some (.notFound "virtualmachine not found") } }

/-- A providerid environment whose node already carries an identifier. -/
def assignedNodeEnv : ProviderIDEnv :=
  { getNodeResp := .ok { name := "machine-test", providerID := "kubevirt://ns/old-name" },
    getNamespaceResp := .ok "kubevirt-actuator-cluster",
    getConfigMapResp := .ok [("namespace", "kubevirt-actuator-cluster")],
    getVMIResp := .ok { vmiTest with name := "renamed-instance" },
    updateNodeErr := none }

/-- C5 fixtures: an already-recorded Failure condition … -/
def c5Existing : VMCondition :=
  { condType := "Failure", status := "True", reason := "MachineCreationFailed",
    message := "boom", lastProbeTime := 5, lastTransitionTime := 5 }

/-- … and a later observation of the same status, reason and message. -/
def c5Incoming : VMCondition :=
  { condType := "Failure", status := "True", reason := "MachineCreationFailed",
    message := "boom", lastProbeTime := 9, lastTransitionTime := 0 }

/-! ## Helper lemmas about the Go map model -/

theorem goLookup_append_left {β : Type} (k : String) (m1 m2 : List (String × β)) (v : β)
    (h : goLookup k m1 = some v) : goLookup k (m1 ++ m2) = some v := by
  induction m1 with
  | nil => simp [goLookup] at h
  | cons p rest ih =>
    by_cases hp : p.1 = k
    · simpa [goLookup, hp] using h
    · simp [goLookup, hp] at h ⊢
      exact ih h

theorem goLookup_append_right {β : Type} (k : String) (m1 m2 : List (String × β))
    (h : goLookup k m1 = none) : goLookup k (m1 ++ m2) = goLookup k m2 := by
  induction m1 with
  | nil => simp
  | cons p rest ih =>
    by_cases hp : p.1 = k
    · simp [goLookup, hp] at h
    · simp [goLookup, hp] at h ⊢
      exact ih h

theorem mapSet_of_absent {β : Type} (k : String) (v : β) (m : List (String × β))
    (h : goLookup k m = none) : mapSet k v m = m ++ [(k, v)] := by
  simp [mapSet, h]

theorem goLookup_map_replace_of_present {β : Type} (k : String) (v : β)
    (m : List (String × β)) (h : (goLookup k m).isSome) :
    goLookup k (m.map (fun p => if p.1 = k then (k, v) else p)) = some v := by
  induction m with
  | nil => simp [goLookup] at h
  | cons p rest ih =>
    by_cases hp : p.1 = k
    · simp [goLookup, hp]
    · simp [goLookup, hp] at h ⊢
      exact ih h

theorem goLookup_mapSet_self {β : Type} (k : String) (v : β) (m : List (String × β)) :
    goLookup k (mapSet k v m) = some v := by
  by_cases h : (goLookup k m).isSome
  · simp [mapSet, h]
    exact goLookup_map_replace_of_present k v m h
  · have h' : goLookup k m = none := by
      cases hv : goLookup k m with
      | none => rfl
      | some w => simp [hv] at h
    rw [mapSet_of_absent k v m h']
    rw [goLookup_append_right k m [(k, v)] h']
    simp [goLookup]

theorem goLookup_map_replace_ne {β : Type} (k k' : String) (v : β)
    (m : List (String × β)) (h : k' ≠ k) :
    goLookup k' (m.map (fun p => if p.1 = k then (k, v) else p)) = goLookup k' m := by
  have hne : ¬(k = k') := fun hc => h hc.symm
  induction m with
  | nil => simp
  | cons p rest ih =>
    by_cases hp : p.1 = k
    · have hp' : ¬(p.1 = k') := by rw [hp]; exact hne
      simp [goLookup, hp, hne, hp']
      exact ih
    · by_cases hpk : p.1 = k'
      · simp only [List.map_cons, goLookup, if_neg hp, if_pos hpk]
      · simp only [List.map_cons, goLookup, if_neg hp, if_neg hpk]
        exact ih

theorem goLookup_mapSet_ne {β : Type} (k k' : String) (v : β) (m : List (String × β))
    (h : k' ≠ k) : goLookup k' (mapSet k v m) = goLookup k' m := by
  by_cases hs : (goLookup k m).isSome
  · simp [mapSet, hs]
    exact goLookup_map_replace_ne k k' v m h
  · have h' : goLookup k m = none := by
      cases hv : goLookup k m with
      | none => rfl
      | some w => simp [hv] at hs
    rw [mapSet_of_absent k v m h']
    by_cases hk : goLookup k' m = none
    · have hne : ¬(k = k') := fun hc => h hc.symm
      rw [goLookup_append_right k' m [(k, v)] hk, hk]
      simp [goLookup, hne]
    · cases hv : goLookup k' m with
      | none => exact absurd hv hk
      | some w => exact goLookup_append_left k' m [(k, v)] w hv

theorem goLookup_append_single_ne {β : Type} (k k0 : String) (v : β)
    (m : List (String × β)) (h : k ≠ k0) :
    goLookup k (m ++ [(k0, v)]) = goLookup k m := by
  cases hv : goLookup k m with
  | none =>
    have hne : ¬(k0 = k) := fun hc => h hc.symm
    rw [goLookup_append_right k m _ hv]
    simp [goLookup, hne]
  | some w => exact goLookup_append_left k m _ w hv

theorem map_replace_of_absent {β : Type} (k : String) (w : β) (m : List (String × β))
    (h : goLookup k m = none) :
    m.map (fun p => if p.1 = k then (k, w) else p) = m := by
  induction m with
  | nil => rfl
  | cons p rest ih =>
    by_cases hp : p.1 = k
    · rw [goLookup, if_pos hp] at h
      exact absurd h (by simp)
    · rw [goLookup, if_neg hp] at h
      simp [hp, ih h]

theorem mapSet_mapSet_absent {β : Type} (k : String) (v w : β) (m : List (String × β))
    (h : goLookup k m = none) : mapSet k w (mapSet k v m) = m ++ [(k, w)] := by
  rw [mapSet_of_absent k v m h]
  have hp : (goLookup k (m ++ [(k, v)])).isSome := by
    rw [goLookup_append_right k m _ h]
    simp [goLookup]
  simp only [mapSet, hp, if_pos]
  rw [List.map_append, map_replace_of_absent k w m h]
  simp

/-- Closed form of the user-data injection when the document has no `storage` field. -/
theorem addHostname_storageAbsent (m : List (String × GoValue)) (host : String)
    (h : goLookup "storage" m = none) :
    addHostnameToUserData (some m) host =
      .ok (m ++ [("storage", .obj [("files", .mapSlice [newUserDataFile host])])]) := by
  have h1 : goLookup "storage" (mapSet "storage" (GoValue.obj []) m) = some (.obj []) :=
    goLookup_mapSet_self "storage" (GoValue.obj []) m
  simp only [addHostnameToUserData, h, Option.isSome_none, Bool.false_eq_true, if_false, h1]
  rw [show goLookup "files"
      (if (goLookup "files" ([] : List (String × GoValue))).isSome = true
       then ([] : List (String × GoValue))
       else mapSet "files" (GoValue.mapSlice []) []) = some (GoValue.mapSlice []) from rfl]
  dsimp only
  rw [show mapSet "files" (GoValue.mapSlice ([] ++ [newUserDataFile host]))
      (if (goLookup "files" ([] : List (String × GoValue))).isSome = true
       then ([] : List (String × GoValue))
       else mapSet "files" (GoValue.mapSlice []) []) =
      [("files", GoValue.mapSlice [newUserDataFile host])] from rfl]
  rw [mapSet_mapSet_absent "storage" _ _ m h]

/-- Closed form of the user-data injection when the document has a `storage` object
without a `files` field. -/
theorem addHostname_storageObjNoFiles (m fs : List (String × GoValue)) (host : String)
    (hs : goLookup "storage" m = some (.obj fs)) (hf : goLookup "files" fs = none) :
    addHostnameToUserData (some m) host =
      .ok (mapSet "storage"
            (.obj (fs ++ [("files", .mapSlice [newUserDataFile host])])) m) := by
  have h2 : goLookup "files" (mapSet "files" (GoValue.mapSlice []) fs) =
      some (.mapSlice []) := goLookup_mapSet_self "files" (GoValue.mapSlice []) fs
  simp only [addHostnameToUserData, hs, Option.isSome_some, if_true, hf,
    Option.isSome_none, Bool.false_eq_true, if_false, h2]
  rw [mapSet_mapSet_absent "files" _ _ fs hf]
  rfl

/-! ## Helper lemmas about the condition helpers -/

theorem updateExistingCondition_condType (now : Nat) (c e : VMCondition) :
    (updateExistingCondition now c e).condType = e.condType := by
  cases hu : shouldUpdateCondition c e <;>
    cases hst : e.status != c.status <;>
      simp [updateExistingCondition, hu, hst]

theorem updateExistingCondition_transition (now : Nat) (c e : VMCondition)
    (h : (updateExistingCondition now c e).lastTransitionTime ≠ e.lastTransitionTime) :
    (updateExistingCondition now c e).status ≠ e.status := by
  cases hu : shouldUpdateCondition c e with
  | false => rw [updateExistingCondition] at h; simp [hu] at h
  | true =>
    cases hst : e.status != c.status with
    | false =>
      rw [updateExistingCondition] at h
      simp [hu, hst] at h
    | true =>
      have hne : e.status ≠ c.status := bne_iff_ne.mp hst
      rw [updateExistingCondition]
      simp [hu, hst]
      exact fun hc => hne hc.symm

theorem updateExistingCondition_probe (now : Nat) (c e : VMCondition) :
    (updateExistingCondition now c e).lastProbeTime =
      if shouldUpdateCondition c e then c.lastProbeTime else e.lastProbeTime := by
  cases hu : shouldUpdateCondition c e <;>
    cases hst : e.status != c.status <;>
      simp [updateExistingCondition, hu, hst]

theorem zip_self_pairs {α : Type} (xs : List α) :
    ∀ p ∈ xs.zip xs, p.1 = p.2 ∧ p.1 ∈ xs := by
  induction xs with
  | nil => intro p hp; simp at hp
  | cons x rest ih =>
    intro p hp
    rw [List.zip_cons_cons] at hp
    rcases List.mem_cons.mp hp with h | h
    · subst h; exact ⟨rfl, List.mem_cons_self _ _⟩
    · rcases ih p h with ⟨h1, h2⟩
      exact ⟨h1, List.mem_cons_of_mem _ h2⟩

theorem zip_append_self {α : Type} (xs ys : List α) :
    ∀ p ∈ xs.zip (xs ++ ys), p.2 = p.1 ∧ p.1 ∈ xs := by
  induction xs with
  | nil => intro p hp; simp at hp
  | cons x rest ih =>
    intro p hp
    rw [List.cons_append, List.zip_cons_cons] at hp
    rcases List.mem_cons.mp hp with h | h
    · subst h; exact ⟨rfl, List.mem_cons_self _ _⟩
    · rcases ih p h with ⟨h1, h2⟩
      exact ⟨h1, List.mem_cons_of_mem _ h2⟩

theorem replaceFirst_types (now : Nat) (c : VMCondition) (l : List VMCondition) :
    (replaceFirstCondition now c l).map (fun x => x.condType) =
      l.map (fun x => x.condType) := by
  induction l with
  | nil => rfl
  | cons e rest ih =>
    by_cases he : e.condType = c.condType
    · simp [replaceFirstCondition, he, updateExistingCondition_condType]
    · simp [replaceFirstCondition, he, ih]

theorem replaceFirst_zip_char (now : Nat) (c : VMCondition) (l : List VMCondition)
    (hu : uniqueConditionTypes l) :
    ∀ p ∈ l.zip (replaceFirstCondition now c l),
      (p.1.condType ≠ c.condType ∧ p.2 = p.1) ∨
      (p.1.condType = c.condType ∧ p.2 = updateExistingCondition now c p.1) := by
  induction l with
  | nil => intro p hp; simp [replaceFirstCondition] at hp
  | cons e rest ih =>
    have hcons := (List.nodup_cons.mp hu)
    have hnotin : e.condType ∉ rest.map (fun x => x.condType) := hcons.1
    have hu' : uniqueConditionTypes rest := hcons.2
    intro p hp
    by_cases he : e.condType = c.condType
    · rw [replaceFirstCondition, if_pos he, List.zip_cons_cons] at hp
      rcases List.mem_cons.mp hp with h | h
      · subst h; right; exact ⟨he, rfl⟩
      · rcases zip_self_pairs rest p h with ⟨h1, h2⟩
        left
        refine ⟨fun hc => ?_, h1.symm⟩
        exact hnotin (he ▸ hc ▸ List.mem_map_of_mem (fun x => x.condType) h2)
    · rw [replaceFirstCondition, if_neg he, List.zip_cons_cons] at hp
      rcases List.mem_cons.mp hp with h | h
      · subst h; left; exact ⟨he, rfl⟩
      · exact ih hu' p h

theorem findProviderCondition_none_iff (conds : List VMCondition) (t : String) :
    findProviderCondition conds t = none ↔ ∀ e ∈ conds, e.condType ≠ t := by
  rw [findProviderCondition, List.find?_eq_none]
  constructor
  · intro h e he
    have := h e he
    simpa using this
  · intro h e he
    simpa using h e he

/-! ## Claim C4 -/

/-- C4 counterexample: the claim quantifies over every boot-config JSON document, but a
document that already carries `storage.files` decodes that array as `[]interface{}`,
on which the source's type assertion `.([]map[string]interface{})` panics — nothing is
derived at all for input `{"storage":{"files":[]}}` with hostname `"machine-test"`. -/
theorem addHostnameExistingFilesPanics :
    addHostnameToUserData (some [("storage", .obj [("files", .arr [])])]) "machine-test" =
      .panics "interface conversion: files is not a slice of maps" := rfl

/-- C4 (amended): for every boot-config JSON object that either has no `storage` field
or whose `storage` field is an object without a `files` field, the hostname-injection
derivation preserves every pre-existing field (top-level fields other than `storage`,
and `storage`-nested fields other than `files`, keep their exact values) and appends
under `storage.files` the single entry `filesystem="root"`, `path="/etc/hostname"`,
`mode=420`, `contents.source="data:,<hostname>"`; in particular, input
`{"key1":"value1"}` with hostname `"machine-test"` derives (in canonical serialized
form) exactly
`{"key1":"value1","storage":{"files":[{"contents":{"source":"data:,machine-test"},"filesystem":"root","mode":420,"path":"/etc/hostname"}]}}`.
Documents whose `storage` is not an object, or which already contain `storage.files`,
instead make the injection panic on a failed type assertion. -/
theorem addHostnameInjectionAmended :
    (∀ (m : List (String × GoValue)) (hostname : String),
      (goLookup "storage" m = none ∨
        ∃ fs, goLookup "storage" m = some (.obj fs) ∧ goLookup "files" fs = none) →
      ∃ m', addHostnameToUserData (some m) hostname = .ok m' ∧
        (∀ k, k ≠ "storage" → goLookup k m' = goLookup k m) ∧
        ∃ fs', goLookup "storage" m' = some (.obj fs') ∧
          goLookup "files" fs' = some (.mapSlice [newUserDataFile hostname]) ∧
          (∀ k, k ≠ "files" →
            goLookup k fs' =
              (match goLookup "storage" m with
               | some (.obj fs) => goLookup k fs
               | _ => none))) ∧
    (∃ m', addHostnameToUserData (some [("key1", .str "value1")]) "machine-test" = .ok m' ∧
      canon (.obj m') = expectedUserDataDoc) := by
  constructor
  · intro m hostname h
    rcases h with h | ⟨fs, hs, hf⟩
    · refine ⟨m ++ [("storage", .obj [("files", .mapSlice [newUserDataFile hostname])])],
        addHostname_storageAbsent m hostname h, ?_, ?_⟩
      · intro k hk
        exact goLookup_append_single_ne k "storage" _ m hk
      · refine ⟨[("files", .mapSlice [newUserDataFile hostname])], ?_, by simp [goLookup], ?_⟩
        · rw [goLookup_append_right "storage" m _ h]
          simp [goLookup]
        · intro k hk
          rw [h]
          have hk' : ¬("files" = k) := fun hc => hk hc.symm
          simp [goLookup, hk']
    · refine ⟨mapSet "storage"
          (.obj (fs ++ [("files", .mapSlice [newUserDataFile hostname])])) m,
        addHostname_storageObjNoFiles m fs hostname hs hf, ?_, ?_⟩
      · intro k hk
        exact goLookup_mapSet_ne "storage" k _ m hk
      · refine ⟨fs ++ [("files", .mapSlice [newUserDataFile hostname])],
          goLookup_mapSet_self "storage" _ m, ?_, ?_⟩
        · rw [goLookup_append_right "files" fs _ hf]
          simp [goLookup]
        · intro k hk
          rw [hs, goLookup_append_single_ne k "files" _ fs hk]
  · exact ⟨_, rfl, rfl⟩

/-- C4 witness: the amended theorem applied at the spec's concrete example. -/
theorem addHostnameInjectionAmendedWitness :
    (goLookup "storage" [("key1", GoValue.str "value1")] = none ∨
      ∃ fs, goLookup "storage" [("key1", GoValue.str "value1")] = some (.obj fs) ∧
        goLookup "files" fs = none) ∧
    (∃ m', addHostnameToUserData (some [("key1", GoValue.str "value1")]) "machine-test" =
        .ok m' ∧
      (∀ k, k ≠ "storage" → goLookup k m' = goLookup k [("key1", GoValue.str "value1")]) ∧
      ∃ fs', goLookup "storage" m' = some (.obj fs') ∧
        goLookup "files" fs' = some (.mapSlice [newUserDataFile "machine-test"]) ∧
        (∀ k, k ≠ "files" →
          goLookup k fs' =
            (match goLookup "storage" [("key1", GoValue.str "value1")] with
             | some (.obj fs) => goLookup k fs
             | _ => none))) :=
  ⟨Or.inl rfl,
   addHostnameInjectionAmended.1 [("key1", GoValue.str "value1")] "machine-test" (Or.inl rfl)⟩

/-! ## Claim C5 -/

/-- C5 counterexample: observing the very same condition again (same type, status,
reason and message, new probe time 9, at now = 10) leaves the stored condition — and
in particular its `lastProbeTime` of 5 — completely untouched, because
`shouldUpdateCondition` only fires on a reason or message change. The claim's
"lastProbeTime is updated on every observation" is therefore false. -/
theorem conditionProbeTimeNotUpdatedOnRepeat :
    setKubevirtMachineProviderCondition 10 c5Incoming [c5Existing] = [c5Existing] ∧
    c5Existing.lastProbeTime = 5 := ⟨rfl, rfl⟩

/-- C5 (amended): through the condition-setting helper, on a condition list with
pairwise-distinct types: a condition of a given type stays unique (updates replace in
place, never append a duplicate — and a first observation is appended with both
timestamps set to now); `lastTransitionTime` changes only when the condition's status
changes; and `lastProbeTime` is updated (to the incoming condition's probe time) only
on observations that change the reason or the message — an observation repeating the
stored reason and message leaves the condition, including its `lastProbeTime`,
unchanged. -/
theorem setConditionInvariantsAmended (now : Nat) (c : VMCondition)
    (conds : List VMCondition) (hu : uniqueConditionTypes conds) :
    uniqueConditionTypes (setKubevirtMachineProviderCondition now c conds) ∧
    (∀ p ∈ conds.zip (setKubevirtMachineProviderCondition now c conds),
      p.2.lastTransitionTime ≠ p.1.lastTransitionTime → p.2.status ≠ p.1.status) ∧
    (∀ p ∈ conds.zip (setKubevirtMachineProviderCondition now c conds),
      p.1.condType = c.condType →
      p.2.lastProbeTime =
        if shouldUpdateCondition c p.1 then c.lastProbeTime else p.1.lastProbeTime) ∧
    (findProviderCondition conds c.condType = none →
      setKubevirtMachineProviderCondition now c conds =
        conds ++ [{ c with lastProbeTime := now, lastTransitionTime := now }]) := by
  cases hf : findProviderCondition conds c.condType with
  | none =>
    have hset : setKubevirtMachineProviderCondition now c conds =
        conds ++ [{ c with lastProbeTime := now, lastTransitionTime := now }] := by
      rw [setKubevirtMachineProviderCondition, hf]
    have hnotin : ∀ e ∈ conds, e.condType ≠ c.condType :=
      (findProviderCondition_none_iff conds c.condType).mp hf
    refine ⟨?_, ?_, ?_, fun _ => hset⟩
    · rw [hset]
      rw [uniqueConditionTypes, List.map_append]
      rw [List.nodup_append]
      refine ⟨hu, List.nodup_singleton _, ?_⟩
      intro t ht hts
      rcases List.mem_map.mp ht with ⟨e, he, hte⟩
      rcases List.mem_map.mp hts with ⟨e', he', hte'⟩
      rcases List.mem_singleton.mp he' with rfl
      exact hnotin e he (hte ▸ hte' ▸ rfl)
    · rw [hset]
      intro p hp hne
      rcases zip_append_self conds _ p hp with ⟨h1, _⟩
      exact absurd (h1 ▸ rfl) hne
    · rw [hset]
      intro p hp htype
      rcases zip_append_self conds _ p hp with ⟨_, h2⟩
      exact absurd htype (hnotin p.1 h2)
  | some e0 =>
    have hset : setKubevirtMachineProviderCondition now c conds =
        replaceFirstCondition now c conds := by
      rw [setKubevirtMachineProviderCondition, hf]
    refine ⟨?_, ?_, ?_, fun hc => Option.noConfusion hc⟩
    · rw [hset, uniqueConditionTypes]
      rw [show (replaceFirstCondition now c conds).map (fun x => x.condType) =
            conds.map (fun x => x.condType) from replaceFirst_types now c conds]
      exact hu
    · rw [hset]
      intro p hp hne
      rcases replaceFirst_zip_char now c conds hu p hp with ⟨_, h2⟩ | ⟨_, h2⟩
      · exact absurd (h2 ▸ rfl) hne
      · rw [h2] at hne ⊢
        exact updateExistingCondition_transition now c p.1 hne
    · rw [hset]
      intro p hp htype
      rcases replaceFirst_zip_char now c conds hu p hp with ⟨h1, _⟩ | ⟨_, h2⟩
      · exact absurd htype h1
      · rw [h2]
        exact updateExistingCondition_probe now c p.1

/-- C5 witness: the amended invariants at a concrete list holding one Failure
condition, observed with a changed message. -/
theorem setConditionInvariantsAmendedWitness :
    uniqueConditionTypes [c5Existing] ∧
    uniqueConditionTypes
      (setKubevirtMachineProviderCondition 12
        { c5Incoming with message := "boom 2" } [c5Existing]) ∧
    (∀ p ∈ [c5Existing].zip
        (setKubevirtMachineProviderCondition 12
          { c5Incoming with message := "boom 2" } [c5Existing]),
      p.1.condType = { c5Incoming with message := "boom 2" }.condType →
      p.2.lastProbeTime =
        if shouldUpdateCondition { c5Incoming with message := "boom 2" } p.1
        then { c5Incoming with message := "boom 2" }.lastProbeTime
        else p.1.lastProbeTime) := by
  have hu : uniqueConditionTypes [c5Existing] := by
    rw [uniqueConditionTypes]; decide
  have h := setConditionInvariantsAmended 12
    { c5Incoming with message := "boom 2" } [c5Existing] hu
  exact ⟨hu, h.1, h.2.2.1⟩

/-! ## Claim C1 -/

/-- C1 (code-bug evidence): when the ignition-secret creation fails (here with error
"boom"), `Create` returns the wrapped non-nil error — but the machine's condition
list is left exactly as it was (empty here): the `Failure`/`MachineCreationFailed`
condition the source builds on this path is assigned a message and then discarded,
never stored on the machine. -/
theorem createDiscardsFailureCondition :
    manager.Create scopeTest secretFailClient (some [("key1", GoValue.str "value1")]) =
      (.ret { err := some (.wrapped "failed to create ignition secret" (.other "boom")),
              syncedStatus := none, conditions := [] },
       [InfraCall.createSecret "kubevirt-actuator-cluster" "machine-test-ignition"]) ∧
    scopeTest.conditions = [] := ⟨rfl, rfl⟩

/-! ## Claim C9 -/

/-- C9 (code-bug evidence): on a boot-config payload that does not decode to a JSON
object, `Create` does not return an error at all — the source ignores the
`json.Unmarshal` error and then assigns into the still-nil map, so the operation
panics before issuing any secret-creation or VM-creation call (the call trace is
empty). -/
theorem createPanicsOnMalformedBootConfig :
    manager.Create scopeTest idleClient none =
      (.panics "assignment to entry in nil map", []) := rfl

/-! ## Claim C2 -/

/-- C2: when `Update` finds no existing VM (the infra-cluster get returns no object
and no error), it returns `wasUpdated = false` together with a retryable
`RequeueAfterError`: 20 seconds while the machine is still within the
eventual-consistency grace window (`UpdateAllowed`), 180 seconds once the window has
elapsed; and the two delays are distinct. -/
theorem updateRequeueOnMissingVM (s : MachineScope) (c : InfraClient)
    (vmd : VirtualMachine)
    (hvm : s.createVMFromMachine = .ok vmd)
    (hget : c.getVMResp = { val := none, err := none }) :
    (s.updateAllowed requeueAfterSeconds = true →
      manager.Update s c =
        (.ret { wasUpdated := false, err := some (.requeueAfter requeueAfterSeconds),
                syncedStatus := none },
         [InfraCall.getVM vmd.objNamespace vmd.name])) ∧
    (s.updateAllowed requeueAfterSeconds = false →
      manager.Update s c =
        (.ret { wasUpdated := false, err := some (.requeueAfter requeueAfterFatalSeconds),
                syncedStatus := none },
         [InfraCall.getVM vmd.objNamespace vmd.name])) ∧
    requeueAfterSeconds ≠ requeueAfterFatalSeconds := by
  refine ⟨fun ha => ?_, fun ha => ?_, by decide⟩
  · simp [manager.Update, manager.updateVM, hvm, hget, ha]
  · simp [manager.Update, manager.updateVM, hvm, hget, ha]

/-- C2 witness: both branches of the grace-window bifurcation at concrete scopes. -/
theorem updateRequeueOnMissingVMWitness :
    scopeTest.createVMFromMachine = .ok vmTest ∧
    idleClient.getVMResp = { val := none, err := none } ∧
    scopeTest.updateAllowed requeueAfterSeconds = true ∧
    manager.Update scopeTest idleClient =
      (.ret { wasUpdated := false, err := some (.requeueAfter requeueAfterSeconds),
              syncedStatus := none },
       [InfraCall.getVM "kubevirt-actuator-cluster" "machine-test"]) ∧
    scopeTestLate.updateAllowed requeueAfterSeconds = false ∧
    manager.Update scopeTestLate idleClient =
      (.ret { wasUpdated := false, err := some (.requeueAfter requeueAfterFatalSeconds),
              syncedStatus := none },
       [InfraCall.getVM "kubevirt-actuator-cluster" "machine-test"]) :=
  ⟨rfl, rfl, rfl,
   (updateRequeueOnMissingVM scopeTest idleClient vmTest rfl rfl).1 rfl,
   rfl,
   (updateRequeueOnMissingVM scopeTestLate idleClient vmTest rfl rfl).2.1 rfl⟩

/-! ## Claim C3 -/

/-- C3: when the status-synchronization step cannot fetch the VM's instance sub-object
(the get returns a not-found/other error, handing back the zero-valued instance a
Kubernetes-style client produces alongside it), the step neither aborts nor panics:
the fetch error is only logged, the machine status is synced from the VM's own fields
with the instance-derived fields empty (VM-only sync), and a Create whose secret and
VM calls succeeded still completes with a nil error. -/
theorem syncDegradesToVMOnlyOnInstanceFetchFailure (s : MachineScope) (c : InfraClient)
    (vm : VirtualMachine) (e : GoError)
    (hvmi : c.getVMIResp = { val := some emptyVMI, err := some e })
    (hpatch : s.statusPatchErr = none) :
    manager.syncMachine s c vm =
      (.ok { vmCreated := vm.status.created, vmReady := vm.status.ready, addresses := [] },
       [InfraCall.getVMI vm.objNamespace vm.name]) ∧
    (∀ (userData : Option (List (String × GoValue)))
        (fullData : List (String × GoValue)) (vmd : VirtualMachine),
      addHostnameToUserData userData s.machineName = .ok fullData →
      s.createVMFromMachine = .ok vmd →
      c.createSecretResp.err = none →
      c.createVMResp = { val := some vm, err := none } →
      (manager.Create s c userData).1 =
        .ret { err := none,
               syncedStatus := some { vmCreated := vm.status.created,
                                      vmReady := vm.status.ready, addresses := [] },
               conditions := s.conditions }) := by
  constructor
  · simp [manager.syncMachine, hvmi, hpatch, syncMachineModel, emptyVMI]
  · intro userData fullData vmd hud hvm hsec hcvm
    simp [manager.Create, hud, hvm, hsec, hcvm, manager.syncMachine, hvmi, hpatch,
      syncMachineModel, emptyVMI]

/-- C3 witness: a create pass on which the instance get fails with not-found. -/
theorem syncDegradesToVMOnlyWitness :
    vmiLagClient.getVMIResp =
      { val := some emptyVMI, err := some (.notFound "virtualmachineinstance not found") } ∧
    scopeTest.statusPatchErr = none ∧
    manager.syncMachine scopeTest vmiLagClient vmTest =
      (.ok { vmCreated := true, vmReady := false, addresses := [] },
       [InfraCall.getVMI "kubevirt-actuator-cluster" "machine-test"]) ∧
    (manager.Create scopeTest vmiLagClient (some [("key1", GoValue.str "value1")])).1 =
      .ret { err := none,
             syncedStatus := some { vmCreated := true, vmReady := false, addresses := [] },
             conditions := [] } := by
  have h := syncDegradesToVMOnlyOnInstanceFetchFailure scopeTest vmiLagClient vmTest
    (.notFound "virtualmachineinstance not found") rfl rfl
  exact ⟨rfl, rfl, h.1, h.2 (some [("key1", GoValue.str "value1")]) _ vmTest rfl rfl rfl rfl⟩

/-! ## Claim C6 -/

/-- C6: when `Update` finds the existing VM and the update call (and the subsequent
status sync) succeed, it returns a nil error and
`wasUpdated = (resource version before the call != resource version after the call)`;
in particular, when the infra cluster answers a no-op update with an unchanged
resource version, `wasUpdated` is `false` with a nil error. -/
theorem updateComputesWasUpdatedFromResourceVersions (s : MachineScope) (c : InfraClient)
    (vmd existing updated : VirtualMachine) (vmi : VirtualMachineInstance)
    (hvm : s.createVMFromMachine = .ok vmd)
    (hget : c.getVMResp = { val := some existing, err := none })
    (hupd : c.updateVMResp = { val := some updated, err := none })
    (hvmi : c.getVMIResp = { val := some vmi, err := none })
    (hpatch : s.statusPatchErr = none) :
    manager.Update s c =
      (.ret { wasUpdated := existing.resourceVersion != updated.resourceVersion,
              err := none, syncedStatus := some (syncMachineModel updated vmi) },
       [InfraCall.getVM vmd.objNamespace vmd.name,
        InfraCall.updateVM vmd.objNamespace vmd.name,
        InfraCall.getVMI updated.objNamespace updated.name]) ∧
    (updated.resourceVersion = existing.resourceVersion →
      manager.Update s c =
        (.ret { wasUpdated := false, err := none,
                syncedStatus := some (syncMachineModel updated vmi) },
         [InfraCall.getVM vmd.objNamespace vmd.name,
          InfraCall.updateVM vmd.objNamespace vmd.name,
          InfraCall.getVMI updated.objNamespace updated.name])) := by
  have h1 : manager.Update s c =
      (.ret { wasUpdated := existing.resourceVersion != updated.resourceVersion,
              err := none, syncedStatus := some (syncMachineModel updated vmi) },
       [InfraCall.getVM vmd.objNamespace vmd.name,
        InfraCall.updateVM vmd.objNamespace vmd.name,
        InfraCall.getVMI updated.objNamespace updated.name]) := by
    simp [manager.Update, manager.updateVM, manager.syncMachine, hvm, hget, hupd, hvmi,
      hpatch]
  refine ⟨h1, fun hrv => ?_⟩
  rw [h1, hrv, bne_self_eq_false]

/-- C6 witness: a no-op update (the infra cluster returns the same resource version)
reports `wasUpdated = false` with a nil error. -/
theorem updateNoopWitness :
    scopeTest.createVMFromMachine = .ok vmTest ∧
    updateNoopClient.getVMResp = { val := some vmTest, err := none } ∧
    updateNoopClient.updateVMResp = { val := some vmTestSameRV, err := none } ∧
    vmTestSameRV.resourceVersion = vmTest.resourceVersion ∧
    manager.Update scopeTest updateNoopClient =
      (.ret { wasUpdated := false, err := none,
              syncedStatus := some (syncMachineModel vmTestSameRV vmiTest) },
       [InfraCall.getVM "kubevirt-actuator-cluster" "machine-test",
        InfraCall.updateVM "kubevirt-actuator-cluster" "machine-test",
        InfraCall.getVMI "kubevirt-actuator-cluster" "machine-test"]) :=
  ⟨rfl, rfl, rfl, rfl,
   (updateComputesWasUpdatedFromResourceVersions scopeTest updateNoopClient vmTest
      vmTest vmTestSameRV vmiTest rfl rfl rfl rfl rfl).2 rfl⟩

/-! ## Claim C7 -/

/-- C7: `Delete` is idempotent and uses a bounded grace period: a not-found get error
or an absent VM object yields a nil error with no delete call issued; a found VM
yields exactly one delete call carrying `GracePeriodSeconds = 10`, and a delete
failure is returned (wrapped), not swallowed. -/
theorem deleteIdempotentWithBoundedGrace (s : MachineScope) (c : InfraClient)
    (vmd : VirtualMachine) (hvm : s.createVMFromMachine = .ok vmd) :
    (∀ e, c.getVMResp.err = some e → e.isNotFound = true →
      manager.Delete s c = (none, [InfraCall.getVM vmd.objNamespace vmd.name])) ∧
    (c.getVMResp.err = none → c.getVMResp.val = none →
      manager.Delete s c = (none, [InfraCall.getVM vmd.objNamespace vmd.name])) ∧
    (∀ vm, c.getVMResp.err = none → c.getVMResp.val = some vm →
      manager.Delete s c =
        ((match c.deleteVMResp with
          | some e => some (.wrapped "failed to delete VM" e)
          | none => none),
         [InfraCall.getVM vmd.objNamespace vmd.name,
          InfraCall.deleteVM vm.objNamespace vm.name 10])) := by
  refine ⟨fun e he hnf => ?_, fun he hval => ?_, fun vm he hval => ?_⟩
  · simp [manager.Delete, hvm, he, hnf]
  · simp [manager.Delete, hvm, he, hval]
  · cases hd : c.deleteVMResp <;>
      simp [manager.Delete, hvm, he, hval, hd]

/-- C7 witness: deleting a machine whose VM exists issues exactly the one delete call
with grace period 10 and succeeds; the theorem also covers the no-VM success paths. -/
theorem deleteIdempotentWitness :
    scopeTest.createVMFromMachine = .ok vmTest ∧
    deleteFoundClient.getVMResp.err = none ∧
    deleteFoundClient.getVMResp.val = some vmTest ∧
    manager.Delete scopeTest deleteFoundClient =
      (none, [InfraCall.getVM "kubevirt-actuator-cluster" "machine-test",
              InfraCall.deleteVM "kubevirt-actuator-cluster" "machine-test" 10]) :=
  ⟨rfl, rfl, rfl,
   (deleteIdempotentWithBoundedGrace scopeTest deleteFoundClient vmTest rfl).2.2
     vmTest rfl rfl⟩

/-! ## Claim C8 -/

/-- C8: `Exists` performs only the one VM read (its call trace is exactly the get);
it returns `(false, nil)` precisely when the get reports not-found or hands back no
object, `(true, nil)` precisely when the VM is found, and any other read failure is
propagated as `(false, that error)` — a `false` result never stands in for an
unreported error. -/
theorem existsReadCharacterization (s : MachineScope) (c : InfraClient) :
    (manager.existsMachine s c).2 = [InfraCall.getVM s.infraNamespace s.machineName] ∧
    ((manager.existsMachine s c).1 = (false, none) ↔
      ((∃ e, c.getVMResp.err = some e ∧ e.isNotFound = true) ∨
        (c.getVMResp.err = none ∧ c.getVMResp.val = none))) ∧
    ((manager.existsMachine s c).1 = (true, none) ↔
      (c.getVMResp.err = none ∧ c.getVMResp.val ≠ none)) ∧
    (∀ e, c.getVMResp.err = some e → e.isNotFound = false →
      (manager.existsMachine s c).1 = (false, some e)) := by
  refine ⟨?_, ?_, ?_, ?_⟩
  · cases herr : c.getVMResp.err with
    | some e => cases hnf : e.isNotFound <;> simp [manager.existsMachine, herr, hnf]
    | none => cases hval : c.getVMResp.val <;> simp [manager.existsMachine, herr, hval]
  · cases herr : c.getVMResp.err with
    | some e => cases hnf : e.isNotFound <;> simp [manager.existsMachine, herr, hnf]
    | none => cases hval : c.getVMResp.val <;> simp [manager.existsMachine, herr, hval]
  · cases herr : c.getVMResp.err with
    | some e => cases hnf : e.isNotFound <;> simp [manager.existsMachine, herr, hnf]
    | none => cases hval : c.getVMResp.val <;> simp [manager.existsMachine, herr, hval]
  · intro e he hnf
    simp [manager.existsMachine, he, hnf]

/-- C8 witness: a not-found get maps to `(false, nil)` and the trace is the single
read. -/
theorem existsReadWitness :
    (manager.existsMachine scopeTest notFoundClient).1 = (false, none) ∧
    (manager.existsMachine scopeTest notFoundClient).2 =
      [InfraCall.getVM "kubevirt-actuator-cluster" "machine-test"] :=
  ⟨(existsReadCharacterization scopeTest notFoundClient).2.1.mpr
     (Or.inl ⟨.notFound "virtualmachine not found", rfl, rfl⟩),
   (existsReadCharacterization scopeTest notFoundClient).1⟩

/-! ## Claim C10 -/

/-- C10: both versions of the providerid reconciler treat a node whose `providerID`
is already non-empty as terminal: the pass performs only the node read (the trace is
exactly the get), issues no node update and returns success with no requeue — the
identifier is never overwritten, whatever the rest of the environment (including a
renamed matching instance) would answer. -/
theorem providerIDImmutableOnceAssigned (env : ProviderIDEnv) (requestName : String)
    (node : Node)
    (hget : env.getNodeResp = .ok node) (hpid : node.providerID ≠ "") :
    providerIDReconcileV1 env requestName =
      ((emptyReconcileResult, none), [ProviderIDCall.getNode requestName]) ∧
    providerIDReconcileV2 env requestName =
      ((emptyReconcileResult, none), [ProviderIDCall.getNode requestName]) := by
  have hb : (node.providerID != "") = true := bne_iff_ne.mpr hpid
  constructor
  · simp [providerIDReconcileV1, hget, hb]
  · simp [providerIDReconcileV2, hget, hb]

/-- C10 witness: a node already assigned `kubevirt://ns/old-name` is untouched by
both reconciler versions, although the matching instance now has a different name. -/
theorem providerIDImmutableWitness :
    assignedNodeEnv.getNodeResp =
      .ok { name := "machine-test", providerID := "kubevirt://ns/old-name" } ∧
    ("kubevirt://ns/old-name" : String) ≠ "" ∧
    assignedNodeEnv.getVMIResp = .ok { vmiTest with name := "renamed-instance" } ∧
    providerIDReconcileV1 assignedNodeEnv "machine-test" =
      ((emptyReconcileResult, none), [ProviderIDCall.getNode "machine-test"]) ∧
    providerIDReconcileV2 assignedNodeEnv "machine-test" =
      ((emptyReconcileResult, none), [ProviderIDCall.getNode "machine-test"]) := by
  have h := providerIDImmutableOnceAssigned assignedNodeEnv "machine-test"
    { name := "machine-test", providerID := "kubevirt://ns/old-name" } rfl (by simp)
  exact ⟨rfl, by simp, rfl, h.1, h.2⟩
